import Mathlib

/-! CEP lookup tool (`main.go`): embedding and verification.

Go strings are modelled as Lean strings (sequences of Unicode code points, that is
the Go strings that hold valid UTF-8, which is what JSON decoding delivers to the
handler and to the response record).  Go's `len` on a string is the UTF-8 byte length,
`String.utf8ByteSize`.  The two regular expressions of `main.go` are given as values of a
small regular-expression type together with a matcher that follows Go's `regexp`
package on runes.
-/

set_option autoImplicit false

namespace CEPLookup

/-! ## Data model -/

/-- CEPResponse represents the response from the Brasil API. -/
structure CEPResponse where
  CEP : String
  State : String
  City : String
  Neighborhood : String
  Street : String
  Service : String
  deriving DecidableEq, Repr

/-- A dynamically typed Go value (`any`) as it reaches the handler in the argument map:
the dynamic types produced by decoding a JSON document.  A number carries the bit
pattern of its `float64`. -/
inductive GoAny where
  | null
  | bool (b : Bool)
  | float64 (bits : Nat)
  | string (s : String)
  | slice (xs : List GoAny)
  | object (kvs : List (String × GoAny))

/-- The type assertion `v.(string)`: the string and `ok = true` exactly when the dynamic
type is `string`. -/
def GoAny.assertString : GoAny → Option String
  | .string s => some s
  | _ => none

/-- `mcp.TextContent`, the only content kind the handler builds. -/
structure TextContent where
  type : String
  text : String
  deriving DecidableEq, Repr

/-- `mcp.CallToolResult` restricted to the fields the handler sets. -/
structure CallToolResult where
  content : List TextContent
  isError : Bool
  deriving DecidableEq, Repr

/-! ## The fragment of Go's `regexp` used by `main.go` -/

/-- Regular expressions: a character range class `[lo-hi]` or its negation `[^lo-hi]`,
the anchors `^` and `$` (no multi-line flag: beginning and end of text), the counted
repetition `r{n}` and concatenation. -/
inductive Regex where
  | cls (negated : Bool) (lo hi : Char)
  | beginText
  | endText
  | rep (n : Nat) (r : Regex)
  | cat (r₁ r₂ : Regex)
  deriving Repr

/-- Runs `step` `n` times in sequence, threading the position and the remaining input. -/
def iterMatch (step : Nat → List Char → Option (Nat × List Char)) :
    Nat → Nat → List Char → Option (Nat × List Char)
  | 0, pos, s => some (pos, s)
  | n + 1, pos, s =>
    match step pos s with
    | none => none
    | some (p, rest) => iterMatch step n p rest

/-- The match of `r` that starts exactly at rune position `pos`, where `s` is the input from
`pos` on: the position after the match and the input left.  In this fragment a regular
expression has at most one match at a given position. -/
def Regex.matchAt : Regex → Nat → List Char → Option (Nat × List Char)
  | .cls negated lo hi, pos, s =>
    match s with
    | [] => none
    | c :: cs => if (decide (lo ≤ c ∧ c ≤ hi)) != negated then some (pos + 1, cs) else none
  | .beginText, pos, s => if pos = 0 then some (pos, s) else none
  | .endText, pos, s => if s.isEmpty then some (pos, s) else none
  | .rep n r, pos, s => iterMatch (fun p t => r.matchAt p t) n pos s
  | .cat r₁ r₂, pos, s =>
    match r₁.matchAt pos s with
    | none => none
    | some (p, rest) => r₂.matchAt p rest

/-- Unanchored search (`doExecute` used as a predicate): is there a match starting at
`pos` or later. -/
def Regex.searchFrom (r : Regex) : Nat → List Char → Bool
  | pos, [] => (r.matchAt pos []).isSome
  | pos, c :: cs => (r.matchAt pos (c :: cs)).isSome || r.searchFrom (pos + 1) cs

/-- `(*Regexp).MatchString`: whether the string contains any match of the expression. -/
def Regex.MatchString (r : Regex) (s : String) : Bool :=
  r.searchFrom 0 s.data

/-- The loop of `(*Regexp).replaceAll` on runes.  `afterMatch` says that the previous match
ended at `pos` (`lastMatchEnd = pos`): the replacement is not inserted for an empty match
right after another match, unless at position 0.  After a match the search goes on behind
it, and always at least one rune further. -/
def Regex.replaceLoop (r : Regex) (repl : List Char) :
    Nat → Nat → Bool → List Char → List Char
  | 0, _, _, s => s
  | fuel + 1, pos, afterMatch, s =>
    match r.matchAt pos s with
    | some (p, rest) =>
      if p > pos then
        repl ++ r.replaceLoop repl fuel p true rest
      else
        (if !afterMatch || pos == 0 then repl else []) ++
          (match s with
           | [] => []
           | c :: cs => c :: r.replaceLoop repl fuel (pos + 1) false cs)
    | none =>
      match s with
      | [] => []
      | c :: cs => c :: r.replaceLoop repl fuel (pos + 1) false cs

/-- `(*Regexp).ReplaceAllString` for a replacement without `$` expansions: a copy of `src`
in which every match is replaced by `repl`.  The loop runs at most once per rune and once
more at the end of the input. -/
def Regex.ReplaceAllString (r : Regex) (src repl : String) : String :=
  ⟨r.replaceLoop repl.data (src.data.length + 1) 0 false src.data⟩

/-- The expression `[^0-9]` compiled in `cleanCEP`. -/
def reNonDigit : Regex := .cls true '0' '9'

/-- The expression `^\d{8}$` compiled in `isValidCEP`; `\d` is the class `[0-9]`. -/
def reEightDigits : Regex :=
  .cat .beginText (.cat (.rep 8 (.cls false '0' '9')) .endText)

/-! ## Normalisation and validation -/

/-- cleanCEP removes non-numeric characters from CEP. -/
def cleanCEP (cep : String) : String :=
  reNonDigit.ReplaceAllString cep ""

/-- isValidCEP checks if the CEP has exactly 8 digits. -/
def isValidCEP (cep : String) : Bool :=
  cep.utf8ByteSize == 8 && reEightDigits.MatchString cep

/-- An ASCII decimal digit: one of the code points 48 (`'0'`) to 57 (`'9'`). -/
def isAsciiDigit (c : Char) : Bool :=
  decide (48 ≤ c.toNat ∧ c.toNat ≤ 57)

/-! ## Remote lookup -/

/-- What `client.R().WithContext(ctx).SetResult(&cepResponse).SetError(&errorResponse).Get(url)`
returns, as `fetchAddressFromAPI` reads it, and nothing more:

* `err`: the error that `Get` returns, as its `Error()` text, `none` for `nil`.  It is not
  only a failure of the transport, a timeout or a cancellation of `ctx`: resty also returns
  an error when it cannot decode the body of a response into `cepResponse` or into
  `errorResponse`, and then `resp` still carries the status code of the answer;
* `statusCode`: the value of `resp.StatusCode()`;
* `respString`: the value of `resp.String()`, the text that resty gives for the body, which
  is not the raw body of the answer: resty trims it, and it is empty once resty has read
  the body to decode it;
* `cepResponse`: the value of the variable `cepResponse` after the call.

Which combinations of these a server can bring about is decided inside resty; every
combination is admitted here. -/
structure GetOutcome where
  err : Option String
  statusCode : Int
  respString : String
  cepResponse : CEPResponse
  deriving DecidableEq, Repr

/-- The method `(*resty.Response).IsError`: true if the HTTP status code is 400 or above
(`r.StatusCode() > 399`). -/
def GetOutcome.IsError (resp : GetOutcome) : Bool :=
  decide (resp.statusCode > 399)

/-- `http.StatusNotFound`. -/
def StatusNotFound : Int := 404

/-- What a call of the handler does, in order: the calls of `fetchAddressFromAPI` and of
`formatAddress`, and the calls of `Get`, each with its URL. -/
inductive Event where
  | fetchAddressFromAPI (cep : String)
  | httpGet (url : String)
  | formatAddress (address : CEPResponse)
  deriving DecidableEq, Repr

/-- fetchAddressFromAPI calls the Brasil API and returns the address information.  The
upstream is a function from the request URL to what `Get` returns for it; the result is the
pair `(*CEPResponse, error)` as an `Except` of the error text, with the requests sent.  The
deferred `client.Close()` only prints and is left out. -/
def fetchAddressFromAPI (upstream : String → GetOutcome) (cep : String) :
    Except String CEPResponse × List Event :=
  let url := "https://brasilapi.com.br/api/cep/v1/" ++ cep
  let resp := upstream url
  let trace := [Event.httpGet url]
  match resp.err with
  | some err => (.error ("failed to execute request: " ++ err), trace)
  | none =>
    if resp.IsError then
      if resp.statusCode = StatusNotFound then
        (.error "CEP not found", trace)
      else
        (.error ("API returned status " ++ toString resp.statusCode ++ ": " ++
          resp.respString), trace)
    else
      (.ok resp.cepResponse, trace)

/-! ## Formatting -/

/-- `strings.Join`: the elements of `elems` with `sep` between them. -/
def Join : List String → String → String
  | [], _ => ""
  | [a], _ => a
  | a :: rest, sep => rest.foldl (fun b s => b ++ sep ++ s) a

/-- formatAddress creates a human-readable string from the CEP response. -/
def formatAddress (address : CEPResponse) : String :=
  let parts : List String := []
  let parts := if address.Street ≠ "" then parts ++ ["Street: " ++ address.Street] else parts
  let parts :=
    if address.Neighborhood ≠ "" then parts ++ ["Neighborhood: " ++ address.Neighborhood]
    else parts
  let parts := if address.City ≠ "" then parts ++ ["City: " ++ address.City] else parts
  let parts := if address.State ≠ "" then parts ++ ["State: " ++ address.State] else parts
  let parts := if address.CEP ≠ "" then parts ++ ["CEP: " ++ address.CEP] else parts
  Join parts "\n"

/-- The formatted result in the words of the specification: one line `<Label>: <value>` per
non-empty field, in the order Street, Neighborhood, City, State, CEP, joined by newlines. -/
def formattedResultSpec (a : CEPResponse) : String :=
  "\n".intercalate
    (([("Street", a.Street), ("Neighborhood", a.Neighborhood), ("City", a.City),
        ("State", a.State), ("CEP", a.CEP)].filter (fun p => p.2 ≠ "")).map
      (fun p => p.1 ++ ": " ++ p.2))

/-- The labelled fields of a record that are not empty, in the order Street, Neighborhood,
City, State, CEP: the fields that the specification gives a line to. -/
def presentFields (a : CEPResponse) : List (String × String) :=
  [("Street", a.Street), ("Neighborhood", a.Neighborhood), ("City", a.City),
    ("State", a.State), ("CEP", a.CEP)].filter (fun p => p.2 ≠ "")

/-- The pieces of a text between its newline separators. -/
def splitOnNewline : List Char → List (List Char)
  | [] => [[]]
  | c :: cs =>
    if c = '\n' then [] :: splitOnNewline cs
    else
      match splitOnNewline cs with
      | [] => [[c]]
      | l :: ls => (c :: l) :: ls

/-- The text lines of an output: what splitting on the newline separator yields, and no
line for the empty output. -/
def outputLines (s : String) : List String :=
  if s = "" then [] else (splitOnNewline s.data).map String.mk

/-! ## The handler -/

/-- `mcp.CallToolRequest` restricted to `Params.Arguments`. -/
structure CallToolRequest where
  arguments : GoAny

/-- `GetArguments` returns the arguments as a `map[string]any`, and an empty map when they
are not a JSON object. -/
def CallToolRequest.GetArguments (request : CallToolRequest) : List (String × GoAny) :=
  match request.arguments with
  | .object kvs => kvs
  | _ => []

/-- The pair `(*mcp.CallToolResult, error)` a handler returns; `none` stands for `nil`. -/
structure HandlerReturn where
  result : Option CallToolResult
  err : Option String
  deriving DecidableEq, Repr

/-- The tool handler `handleCEPLookup`, with the trace of the calls it makes. -/
def handleCEPLookup (upstream : String → GetOutcome) (request : CallToolRequest) :
    HandlerReturn × List Event :=
  let args := request.GetArguments
  match args.lookup "cep" with
  | none =>
    ({ result := some { content := [{ type := "text", text := "CEP parameter is required" }],
                        isError := true },
       err := none }, [])
  | some cepValue =>
    match cepValue.assertString with
    | none =>
      ({ result := some { content := [{ type := "text", text := "CEP must be a string" }],
                          isError := true },
         err := none }, [])
    | some cep =>
      let cleaned := cleanCEP cep
      if !isValidCEP cleaned then
        ({ result := some { content := [{ type := "text",
                                          text := "Invalid CEP format. Expected 8 digits (e.g., 01310100 or 01310-100)" }],
                            isError := true },
           err := none }, [])
      else
        match fetchAddressFromAPI upstream cleaned with
        | (.error err, trace) =>
          ({ result := some { content := [{ type := "text",
                                            text := "Failed to fetch address: " ++ err }],
                              isError := true },
             err := none }, Event.fetchAddressFromAPI cleaned :: trace)
        | (.ok address, trace) =>
          let response := formatAddress address
          ({ result := some { content := [{ type := "text", text := response }],
                              isError := false },
             err := none },
           Event.fetchAddressFromAPI cleaned :: trace ++ [Event.formatAddress address])

/-- The event is a call of `fetchAddressFromAPI`. -/
def Event.isFetch : Event → Bool
  | .fetchAddressFromAPI _ => true
  | _ => false

/-- The event is an HTTP GET request. -/
def Event.isGet : Event → Bool
  | .httpGet _ => true
  | _ => false

/-- The event is a call of `formatAddress`. -/
def Event.isFormat : Event → Bool
  | .formatAddress _ => true
  | _ => false

/-- The steps of the handler in the order of the specification, as the first one that
fails: parameter extraction, type check, validation, remote lookup with its reason; or the
success of all of them with the decoded record. -/
inductive Step where
  | extraction
  | typeCheck
  | validation
  | lookup (reason : String)
  | success (address : CEPResponse)
  deriving DecidableEq, Repr

/-- The kind of a step, 0 to 4, without the reason or the record it carries. -/
def Step.kind : Step → Nat
  | .extraction => 0
  | .typeCheck => 1
  | .validation => 2
  | .lookup _ => 3
  | .success _ => 4

/-- The first failing step of a call, in the words of the specification: extraction fails
when the parameter is missing; else the type check fails when it is not a string; else
validation fails when it does not hold exactly 8 ASCII digits; else the lookup fails when
it returns an error; else nothing fails. -/
def firstFailingStep (upstream : String → GetOutcome) (request : CallToolRequest) : Step :=
  match request.GetArguments.lookup "cep" with
  | none => .extraction
  | some (.string raw) =>
    if (raw.data.filter isAsciiDigit).length ≠ 8 then .validation
    else
      match (fetchAddressFromAPI upstream (String.mk (raw.data.filter isAsciiDigit))).1 with
      | .error reason => .lookup reason
      | .ok address => .success address
  | some _ => .typeCheck

/-- The result that the specification gives to each first failing step: the four error
texts with the error flag, or the formatted record without it. -/
def Step.result : Step → CallToolResult
  | .extraction =>
    { content := [{ type := "text", text := "CEP parameter is required" }], isError := true }
  | .typeCheck =>
    { content := [{ type := "text", text := "CEP must be a string" }], isError := true }
  | .validation =>
    { content := [{ type := "text",
                    text := "Invalid CEP format. Expected 8 digits (e.g., 01310100 or 01310-100)" }],
      isError := true }
  | .lookup reason =>
    { content := [{ type := "text", text := "Failed to fetch address: " ++ reason }],
      isError := true }
  | .success address =>
    { content := [{ type := "text", text := formatAddress address }], isError := false }

/-! ## Sample inputs -/

/-- The record of the specification's formatting example. -/
def paulista : CEPResponse :=
  { CEP := "01310-100", State := "", City := "São Paulo", Neighborhood := "",
    Street := "Av. Paulista", Service := "" }

/-- The zero value of `CEPResponse`. -/
def emptyRecord : CEPResponse :=
  { CEP := "", State := "", City := "", Neighborhood := "", Street := "", Service := "" }

/-- An upstream for which every `Get` returns no error and a response with the given status
code and the given `resp.String()`, the record left at its zero value. -/
def upstreamStatus (code : Int) (text : String) : String → GetOutcome :=
  fun _ => { err := none, statusCode := code, respString := text, cepResponse := emptyRecord }

/-- An upstream for which every `Get` fails with the given error text and no response. -/
def upstreamDown (msg : String) : String → GetOutcome :=
  fun _ => { err := some msg, statusCode := 0, respString := "", cepResponse := emptyRecord }

/-- An upstream for which every `Get` returns no error, status 200 and the given decoded
record. -/
def upstreamOk (a : CEPResponse) : String → GetOutcome :=
  fun _ => { err := none, statusCode := 200, respString := "", cepResponse := a }

/-- An upstream that answers with the given status code and a body of a JSON content type
that is not JSON, such as `oops`: `Get` returns the response with that status code together
with the error of the decoder. -/
def upstreamUndecodable (code : Int) (msg : String) : String → GetOutcome :=
  fun _ => { err := some msg, statusCode := code, respString := "", cepResponse := emptyRecord }

/-- A request whose arguments are the JSON object with the given members. -/
def requestOf (kvs : List (String × GoAny)) : CallToolRequest :=
  { arguments := GoAny.object kvs }

/-- A record whose street holds a newline character. -/
def twoLineStreet : CEPResponse :=
  { CEP := "", State := "", City := "", Neighborhood := "", Street := "A\nB", Service := "" }

/-- A record that only holds the name of the service. -/
def serviceOnly : CEPResponse :=
  { CEP := "", State := "", City := "", Neighborhood := "", Street := "",
    Service := "open-cep" }

/-! ## Lemmas on the regular expressions -/

theorem inDigitRange_eq_isDigit (c : Char) : decide ('0' ≤ c ∧ c ≤ '9') = c.isDigit := by
  simp [Char.isDigit, Char.le_def, Bool.decide_and]

theorem matchAt_nonDigit_nil (pos : Nat) : reNonDigit.matchAt pos [] = none := rfl

theorem matchAt_nonDigit_cons (pos : Nat) (c : Char) (cs : List Char) :
    reNonDigit.matchAt pos (c :: cs) = if c.isDigit then none else some (pos + 1, cs) := by
  simp only [reNonDigit, Regex.matchAt, inDigitRange_eq_isDigit]
  cases c.isDigit <;> simp

theorem replaceLoop_nonDigit (fuel : Nat) :
    ∀ (pos : Nat) (afterMatch : Bool) (s : List Char), s.length < fuel →
      reNonDigit.replaceLoop [] fuel pos afterMatch s = s.filter Char.isDigit := by
  induction fuel with
  | zero => intro _ _ s h; omega
  | succ fuel ih =>
    intro pos afterMatch s h
    cases s with
    | nil => simp [Regex.replaceLoop, matchAt_nonDigit_nil]
    | cons c cs =>
      have hlen : cs.length < fuel := by simpa using h
      simp only [Regex.replaceLoop, matchAt_nonDigit_cons]
      by_cases hc : c.isDigit = true
      · simp [hc, ih _ _ cs hlen]
      · simp [hc, ih _ _ cs hlen]

theorem cleanCEP_data (s : String) : (cleanCEP s).data = s.data.filter Char.isDigit := by
  simp [cleanCEP, Regex.ReplaceAllString, replaceLoop_nonDigit]

theorem matchAt_digit (pos : Nat) (s : List Char) :
    (Regex.cls false '0' '9').matchAt pos s =
      match s with
      | [] => none
      | c :: cs => if c.isDigit then some (pos + 1, cs) else none := by
  cases s with
  | nil => rfl
  | cons c cs =>
    simp only [Regex.matchAt, inDigitRange_eq_isDigit]
    cases c.isDigit <;> simp

theorem iterMatch_digit (step : Nat → List Char → Option (Nat × List Char))
    (hstep : ∀ p t, step p t =
      match t with
      | [] => none
      | c :: cs => if c.isDigit then some (p + 1, cs) else none) (n : Nat) :
    ∀ (pos : Nat) (s : List Char),
      iterMatch step n pos s =
        if n ≤ s.length ∧ ∀ c ∈ s.take n, c.isDigit = true then some (pos + n, s.drop n)
        else none := by
  induction n with
  | zero => intro pos s; simp [iterMatch]
  | succ n ih =>
    intro pos s
    cases s with
    | nil => simp [iterMatch, hstep]
    | cons c cs =>
      simp only [iterMatch, hstep]
      by_cases hc : c.isDigit = true
      · simp only [hc, if_true, ih]
        by_cases h : n ≤ cs.length ∧ ∀ c ∈ cs.take n, c.isDigit = true
        · have h2 : n + 1 ≤ (c :: cs).length ∧ ∀ d ∈ (c :: cs).take (n + 1), d.isDigit = true := by
            refine ⟨by simpa using h.1, ?_⟩
            intro d hd
            simp only [List.take_succ_cons, List.mem_cons] at hd
            rcases hd with rfl | hd
            · exact hc
            · exact h.2 d hd
          rw [if_pos h, if_pos h2]
          simp [Nat.add_assoc, Nat.add_comm 1 n]
        · have h2 : ¬ (n + 1 ≤ (c :: cs).length ∧
              ∀ d ∈ (c :: cs).take (n + 1), d.isDigit = true) := by
            rintro ⟨h3, h4⟩
            apply h
            refine ⟨by simpa using h3, ?_⟩
            intro d hd
            exact h4 d (by simp [hd])
          rw [if_neg h, if_neg h2]
      · have h2 : ¬ (n + 1 ≤ (c :: cs).length ∧
            ∀ d ∈ (c :: cs).take (n + 1), d.isDigit = true) := by
          rintro ⟨_, h4⟩
          exact hc (h4 c (by simp))
        simp only [hc, if_neg h2]
        simp

theorem matchAt_eightDigits_unfold (pos : Nat) (s : List Char) :
    reEightDigits.matchAt pos s =
      match (if pos = 0 then some (pos, s) else none : Option (Nat × List Char)) with
      | none => none
      | some (p, rest) =>
        match iterMatch (fun p t => (Regex.cls false '0' '9').matchAt p t) 8 p rest with
        | none => none
        | some (q, rest2) => if rest2.isEmpty then some (q, rest2) else none := rfl

theorem matchAt_eightDigits_isSome (pos : Nat) (s : List Char) :
    (reEightDigits.matchAt pos s).isSome = true ↔
      pos = 0 ∧ s.length = 8 ∧ ∀ c ∈ s, c.isDigit = true := by
  rw [matchAt_eightDigits_unfold]
  by_cases hp : pos = 0
  · subst hp
    simp only [if_true, true_and]
    rw [iterMatch_digit _ matchAt_digit]
    by_cases h : 8 ≤ s.length ∧ ∀ c ∈ s.take 8, c.isDigit = true
    · rw [if_pos h]
      simp only [List.isEmpty_iff, List.drop_eq_nil_iff]
      constructor
      · intro h2
        split at h2
        · rename_i h3
          have hl : s.length = 8 := by omega
          refine ⟨hl, ?_⟩
          have := h.2
          rwa [List.take_of_length_le (by omega)] at this
        · simp at h2
      · rintro ⟨hl, hd⟩
        simp [hl]
    · rw [if_neg h]
      simp only [Option.isSome_none, Bool.false_eq_true, false_iff]
      rintro ⟨hl, hd⟩
      apply h
      refine ⟨by omega, ?_⟩
      intro c hc
      exact hd c (List.mem_of_mem_take hc)
  · simp [hp]

theorem searchFrom_eightDigits_succ (s : List Char) :
    ∀ pos : Nat, reEightDigits.searchFrom (pos + 1) s = false := by
  induction s with
  | nil =>
    intro pos
    have := matchAt_eightDigits_isSome (pos + 1) []
    simp only [Regex.searchFrom]
    cases h : (reEightDigits.matchAt (pos + 1) []).isSome
    · rfl
    · simp [h] at this
  | cons c cs ih =>
    intro pos
    have := matchAt_eightDigits_isSome (pos + 1) (c :: cs)
    simp only [Regex.searchFrom, ih, Bool.or_false]
    cases h : (reEightDigits.matchAt (pos + 1) (c :: cs)).isSome
    · rfl
    · simp [h] at this

theorem matchString_eightDigits (s : String) :
    reEightDigits.MatchString s = true ↔
      s.data.length = 8 ∧ ∀ c ∈ s.data, c.isDigit = true := by
  unfold Regex.MatchString
  cases hs : s.data with
  | nil =>
    simp only [Regex.searchFrom]
    rw [matchAt_eightDigits_isSome]
    simp
  | cons c cs =>
    simp only [Regex.searchFrom, searchFrom_eightDigits_succ, Bool.or_false]
    rw [matchAt_eightDigits_isSome]
    simp

theorem utf8Size_of_isDigit (c : Char) (h : c.isDigit = true) : c.utf8Size = 1 := by
  simp only [Char.isDigit, Bool.and_eq_true, decide_eq_true_eq] at h
  have h1 : c.val ≤ 127 := by
    exact UInt32.le_trans h.2 (by decide)
  simp [Char.utf8Size, h1]

theorem utf8ByteSize_go_of_digits (l : List Char) (h : ∀ c ∈ l, c.isDigit = true) :
    String.utf8ByteSize.go l = l.length := by
  induction l with
  | nil => rfl
  | cons c cs ih =>
    simp only [String.utf8ByteSize.go, List.length_cons]
    rw [ih (fun d hd => h d (by simp [hd])), utf8Size_of_isDigit c (h c (by simp))]

theorem utf8ByteSize_of_digits (s : String) (h : ∀ c ∈ s.data, c.isDigit = true) :
    s.utf8ByteSize = s.data.length := by
  cases s with
  | mk l => exact utf8ByteSize_go_of_digits l h

theorem isValidCEP_iff (s : String) :
    isValidCEP s = true ↔ s.data.length = 8 ∧ ∀ c ∈ s.data, c.isDigit = true := by
  simp only [isValidCEP, Bool.and_eq_true, beq_iff_eq, matchString_eightDigits]
  constructor
  · rintro ⟨_, h⟩
    exact h
  · intro h
    refine ⟨?_, h⟩
    rw [utf8ByteSize_of_digits s h.2, h.1]

theorem isAsciiDigit_eq_isDigit (c : Char) : isAsciiDigit c = c.isDigit := by
  simp only [isAsciiDigit, Char.isDigit, Char.toNat, Bool.decide_and, ge_iff_le]
  rfl

theorem filter_isAsciiDigit (l : List Char) : l.filter isAsciiDigit = l.filter Char.isDigit := by
  congr 1
  funext c
  exact isAsciiDigit_eq_isDigit c

theorem cleanCEP_all_digits (s : String) : ∀ c ∈ (cleanCEP s).data, c.isDigit = true := by
  intro c hc
  rw [cleanCEP_data] at hc
  exact (List.mem_filter.mp hc).2

theorem cleanCEP_utf8ByteSize (s : String) :
    (cleanCEP s).utf8ByteSize = (s.data.filter Char.isDigit).length := by
  rw [utf8ByteSize_of_digits _ (cleanCEP_all_digits s), cleanCEP_data]

theorem isValidCEP_cleanCEP (s : String) :
    isValidCEP (cleanCEP s) = decide ((cleanCEP s).utf8ByteSize = 8) := by
  rw [Bool.eq_iff_iff, isValidCEP_iff, decide_eq_true_eq,
    utf8ByteSize_of_digits _ (cleanCEP_all_digits s)]
  exact ⟨fun h => h.1, fun h => ⟨h, cleanCEP_all_digits s⟩⟩

/-! ## Lemmas on the handler -/

theorem fetch_trace (upstream : String → GetOutcome) (cep : String) :
    (fetchAddressFromAPI upstream cep).2 =
      [Event.httpGet ("https://brasilapi.com.br/api/cep/v1/" ++ cep)] := by
  unfold fetchAddressFromAPI
  simp only
  split
  · rfl
  · split
    · split <;> rfl
    · rfl

theorem handle_of_string (upstream : String → GetOutcome) (request : CallToolRequest)
    (raw : String) (h : request.GetArguments.lookup "cep" = some (GoAny.string raw)) :
    handleCEPLookup upstream request =
      if !isValidCEP (cleanCEP raw) then
        ({ result := some { content := [{ type := "text",
                                          text := "Invalid CEP format. Expected 8 digits (e.g., 01310100 or 01310-100)" }],
                            isError := true },
           err := none }, [])
      else
        match fetchAddressFromAPI upstream (cleanCEP raw) with
        | (.error err, trace) =>
          ({ result := some { content := [{ type := "text",
                                            text := "Failed to fetch address: " ++ err }],
                              isError := true },
             err := none }, Event.fetchAddressFromAPI (cleanCEP raw) :: trace)
        | (.ok address, trace) =>
          ({ result := some { content := [{ type := "text", text := formatAddress address }],
                              isError := false },
             err := none },
           Event.fetchAddressFromAPI (cleanCEP raw) :: trace ++ [Event.formatAddress address]) := by
  simp only [handleCEPLookup, h, GoAny.assertString]

theorem failed_ne_invalid (err : String) :
    "Failed to fetch address: " ++ err ≠
      "Invalid CEP format. Expected 8 digits (e.g., 01310100 or 01310-100)" := by
  cases err with
  | mk l =>
    intro h
    have h2 : some 'F' = some 'I' := congrArg (fun t => t.data.head?) h
    exact absurd h2 (by decide)

theorem fetch_result_transport (upstream : String → GetOutcome) (cep e : String)
    (herr : (upstream ("https://brasilapi.com.br/api/cep/v1/" ++ cep)).err = some e) :
    (fetchAddressFromAPI upstream cep).1 = .error ("failed to execute request: " ++ e) := by
  simp only [fetchAddressFromAPI, herr]

theorem fetch_result_not_found (upstream : String → GetOutcome) (cep : String)
    (herr : (upstream ("https://brasilapi.com.br/api/cep/v1/" ++ cep)).err = none)
    (hcode : (upstream ("https://brasilapi.com.br/api/cep/v1/" ++ cep)).statusCode = 404) :
    (fetchAddressFromAPI upstream cep).1 = .error "CEP not found" := by
  simp [fetchAddressFromAPI, herr, hcode, GetOutcome.IsError, StatusNotFound]

theorem fetch_result_status (upstream : String → GetOutcome) (cep : String)
    (herr : (upstream ("https://brasilapi.com.br/api/cep/v1/" ++ cep)).err = none)
    (hcode : (upstream ("https://brasilapi.com.br/api/cep/v1/" ++ cep)).statusCode > 399)
    (h404 : (upstream ("https://brasilapi.com.br/api/cep/v1/" ++ cep)).statusCode ≠ 404) :
    (fetchAddressFromAPI upstream cep).1 =
      .error ("API returned status " ++
        toString (upstream ("https://brasilapi.com.br/api/cep/v1/" ++ cep)).statusCode ++
        ": " ++ (upstream ("https://brasilapi.com.br/api/cep/v1/" ++ cep)).respString) := by
  simp [fetchAddressFromAPI, herr, hcode, h404, GetOutcome.IsError, StatusNotFound]

theorem handle_of_valid (upstream : String → GetOutcome) (request : CallToolRequest)
    (raw : String) (h : request.GetArguments.lookup "cep" = some (GoAny.string raw))
    (hv : (cleanCEP raw).utf8ByteSize = 8) :
    handleCEPLookup upstream request =
      match (fetchAddressFromAPI upstream (cleanCEP raw)).1 with
      | .error err =>
        ({ result := some { content := [{ type := "text",
                                          text := "Failed to fetch address: " ++ err }],
                            isError := true },
           err := none },
         [Event.fetchAddressFromAPI (cleanCEP raw),
          Event.httpGet ("https://brasilapi.com.br/api/cep/v1/" ++ cleanCEP raw)])
      | .ok address =>
        ({ result := some { content := [{ type := "text", text := formatAddress address }],
                            isError := false },
           err := none },
         [Event.fetchAddressFromAPI (cleanCEP raw),
          Event.httpGet ("https://brasilapi.com.br/api/cep/v1/" ++ cleanCEP raw),
          Event.formatAddress address]) := by
  rw [handle_of_string upstream request raw h, isValidCEP_cleanCEP]
  have ht := fetch_trace upstream (cleanCEP raw)
  cases hf : fetchAddressFromAPI upstream (cleanCEP raw) with
  | mk r trace =>
    rw [hf] at ht
    simp only at ht
    subst ht
    cases r <;> simp [hv]

theorem handle_of_invalid (upstream : String → GetOutcome) (request : CallToolRequest)
    (raw : String) (h : request.GetArguments.lookup "cep" = some (GoAny.string raw))
    (hv : (cleanCEP raw).utf8ByteSize ≠ 8) :
    handleCEPLookup upstream request =
      ({ result := some { content := [{ type := "text",
                                        text := "Invalid CEP format. Expected 8 digits (e.g., 01310100 or 01310-100)" }],
                          isError := true },
         err := none }, []) := by
  rw [handle_of_string upstream request raw h, isValidCEP_cleanCEP]
  simp [hv]

/-! ## Lemmas on joining and splitting -/

theorem foldl_join_data (sep : String) (rest : List String) :
    ∀ a : String, (rest.foldl (fun b s => b ++ sep ++ s) a).data =
      a.data ++ rest.foldr (fun s acc => sep.data ++ s.data ++ acc) [] := by
  induction rest with
  | nil => intro a; simp
  | cons r rs ih =>
    intro a
    simp only [List.foldl_cons, List.foldr_cons, ih, String.data_append, List.append_assoc]

theorem Join_cons_data (a : String) (rest : List String) (sep : String) :
    (Join (a :: rest) sep).data =
      a.data ++ rest.foldr (fun s acc => sep.data ++ s.data ++ acc) [] := by
  cases rest with
  | nil => simp [Join]
  | cons r rs =>
    unfold Join
    exact foldl_join_data sep (r :: rs) a

theorem splitOnNewline_ne_nil (l : List Char) : splitOnNewline l ≠ [] := by
  induction l with
  | nil => simp [splitOnNewline]
  | cons c cs ih =>
    unfold splitOnNewline
    split
    · simp
    · cases h : splitOnNewline cs with
      | nil => simp
      | cons x xs => simp

theorem splitOnNewline_of_not_mem (l : List Char) (h : '\n' ∉ l) : splitOnNewline l = [l] := by
  induction l with
  | nil => rfl
  | cons c cs ih =>
    have hc : c ≠ '\n' := fun e => h (by simp [e])
    have hcs : '\n' ∉ cs := fun e => h (by simp [e])
    simp [splitOnNewline, hc, ih hcs]

theorem splitOnNewline_append (l t : List Char) (h : '\n' ∉ l) :
    splitOnNewline (l ++ '\n' :: t) = l :: splitOnNewline t := by
  induction l with
  | nil => simp [splitOnNewline]
  | cons c cs ih =>
    have hc : c ≠ '\n' := fun e => h (by simp [e])
    have hcs : '\n' ∉ cs := fun e => h (by simp [e])
    simp [splitOnNewline, hc, ih hcs]

theorem splitOnNewline_joined (rest : List String) (hrest : ∀ s ∈ rest, '\n' ∉ s.data) :
    ∀ l : List Char, '\n' ∉ l →
      splitOnNewline (l ++ rest.foldr (fun s acc => "\n".data ++ s.data ++ acc) []) =
        l :: rest.map String.data := by
  induction rest with
  | nil =>
    intro l hl
    simp [splitOnNewline_of_not_mem l hl]
  | cons r rs ih =>
    intro l hl
    have hr : '\n' ∉ r.data := hrest r (by simp)
    have hrs : ∀ s ∈ rs, '\n' ∉ s.data := fun s hs => hrest s (by simp [hs])
    show splitOnNewline
        (l ++ '\n' :: (r.data ++ rs.foldr (fun s acc => "\n".data ++ s.data ++ acc) [])) =
      l :: r.data :: rs.map String.data
    rw [splitOnNewline_append l _ hl, ih hrs r.data hr]

theorem outputLines_Join (ls : List String) (hne : ∀ s ∈ ls, s ≠ "")
    (hnl : ∀ s ∈ ls, '\n' ∉ s.data) : outputLines (Join ls "\n") = ls := by
  cases ls with
  | nil => simp [Join, outputLines]
  | cons a rest =>
    have ha : a ≠ "" := hne a (by simp)
    have hd : (Join (a :: rest) "\n").data ≠ [] := by
      rw [Join_cons_data]
      intro h
      have h2 : a.data = [] := (List.append_eq_nil.mp h).1
      exact ha (String.ext h2)
    have hj : Join (a :: rest) "\n" ≠ "" := fun h => hd (by rw [h])
    have hid : (String.mk ∘ String.data) = id := by
      funext s
      rfl
    unfold outputLines
    rw [if_neg hj, Join_cons_data,
      splitOnNewline_joined rest (fun s hs => hnl s (by simp [hs])) a.data (hnl a (by simp))]
    simp [hid]

theorem formatAddress_eq_Join (a : CEPResponse) :
    formatAddress a = Join ((presentFields a).map (fun p => p.1 ++ ": " ++ p.2)) "\n" := by
  unfold formatAddress presentFields
  by_cases h1 : a.Street = "" <;> by_cases h2 : a.Neighborhood = "" <;>
    by_cases h3 : a.City = "" <;> by_cases h4 : a.State = "" <;>
    by_cases h5 : a.CEP = "" <;>
    simp [h1, h2, h3, h4, h5]

theorem presentFields_mem (a : CEPResponse) (p : String × String) (hp : p ∈ presentFields a) :
    p.2 ≠ "" ∧
      (p = ("Street", a.Street) ∨ p = ("Neighborhood", a.Neighborhood) ∨ p = ("City", a.City) ∨
        p = ("State", a.State) ∨ p = ("CEP", a.CEP)) := by
  unfold presentFields at hp
  rw [List.mem_filter] at hp
  refine ⟨by simpa using hp.2, ?_⟩
  simpa using hp.1

theorem line_ne_empty (p : String × String) : p.1 ++ ": " ++ p.2 ≠ "" := by
  intro h
  have h2 := congrArg String.data h
  simp only [String.data_append] at h2
  have h4 := congrArg List.length h2
  simp only [List.length_append, List.length_cons, List.length_nil] at h4
  omega

theorem formatAddress_eq_empty_iff (a : CEPResponse) :
    formatAddress a = "" ↔ presentFields a = [] := by
  rw [formatAddress_eq_Join]
  constructor
  · intro h
    cases hp : presentFields a with
    | nil => rfl
    | cons p ps =>
      rw [hp] at h
      have h2 := congrArg String.data h
      rw [List.map_cons, Join_cons_data] at h2
      have h3 : (p.1 ++ ": " ++ p.2).data = [] := (List.append_eq_nil.mp h2).1
      exact absurd (String.ext h3) (line_ne_empty p)
  · intro h
    rw [h]
    rfl

theorem presentFields_eq_nil_iff (a : CEPResponse) :
    presentFields a = [] ↔
      a.Street = "" ∧ a.Neighborhood = "" ∧ a.City = "" ∧ a.State = "" ∧ a.CEP = "" := by
  unfold presentFields
  simp [List.filter_eq_nil_iff]

theorem formatAddress_take_five (a : CEPResponse) :
    formatAddress a = "" ∨
      (formatAddress a).data.take 5 ∈
        ["Stree".data, "Neigh".data, "City:".data, "State".data, "CEP: ".data] := by
  cases hp : presentFields a with
  | nil => exact Or.inl ((formatAddress_eq_empty_iff a).mpr hp)
  | cons p ps =>
    right
    have hmem := (presentFields_mem a p (by rw [hp]; simp)).2
    rw [formatAddress_eq_Join, hp, List.map_cons, Join_cons_data]
    simp only [String.data_append, List.append_assoc]
    rcases hmem with h | h | h | h | h <;> rw [h] <;> simp only [List.mem_cons]
    · exact Or.inl rfl
    · exact Or.inr (Or.inl rfl)
    · exact Or.inr (Or.inr (Or.inl rfl))
    · exact Or.inr (Or.inr (Or.inr (Or.inl rfl)))
    · exact Or.inr (Or.inr (Or.inr (Or.inr (Or.inl rfl))))

theorem failed_take_five (r : String) :
    ("Failed to fetch address: " ++ r).data.take 5 = "Faile".data := by
  rw [String.data_append]
  rfl

theorem formatAddress_ne_of_take_five (a : CEPResponse) (t : String) (ht : t ≠ "")
    (h5 : t.data.take 5 ∉
      ["Stree".data, "Neigh".data, "City:".data, "State".data, "CEP: ".data]) :
    formatAddress a ≠ t := by
  intro h
  rcases formatAddress_take_five a with h0 | hm
  · exact ht (h ▸ h0)
  · rw [h] at hm
    exact h5 hm

theorem failed_ne_of_take_five (r t : String) (h5 : t.data.take 5 ≠ "Faile".data) :
    "Failed to fetch address: " ++ r ≠ t := by
  intro h
  apply h5
  rw [← h]
  exact failed_take_five r

theorem formatAddress_ne_failed (a : CEPResponse) (r : String) :
    formatAddress a ≠ "Failed to fetch address: " ++ r := by
  apply formatAddress_ne_of_take_five
  · intro h
    have h2 := congrArg (fun t => t.data.take 5) h
    simp only [failed_take_five] at h2
    exact absurd h2 (by decide)
  · rw [failed_take_five]
    decide

theorem cleanCEP_eq_mk (s : String) : cleanCEP s = String.mk (s.data.filter isAsciiDigit) := by
  apply String.ext
  rw [cleanCEP_data, filter_isAsciiDigit]

theorem firstFailingStep_of_string (upstream : String → GetOutcome)
    (request : CallToolRequest) (raw : String)
    (h : request.GetArguments.lookup "cep" = some (GoAny.string raw)) :
    firstFailingStep upstream request =
      if (cleanCEP raw).utf8ByteSize ≠ 8 then Step.validation
      else
        match (fetchAddressFromAPI upstream (cleanCEP raw)).1 with
        | .error reason => Step.lookup reason
        | .ok address => Step.success address := by
  simp only [firstFailingStep, h, cleanCEP_eq_mk raw]
  rw [← cleanCEP_eq_mk raw, cleanCEP_utf8ByteSize, filter_isAsciiDigit]

/-! ## Normalisation and validation: the claims -/

/-- C1: for every input string, cleanCEP returns exactly its ASCII decimal digits, in their
original order, every other character removed; in particular "01310-100" becomes
"01310100" and "abc123" becomes "123". -/
theorem cleanCEP_eq_filter_digits :
    (∀ s : String, cleanCEP s = String.mk (s.data.filter isAsciiDigit)) ∧
      cleanCEP "01310-100" = "01310100" ∧ cleanCEP "abc123" = "123" := by
  refine ⟨?_, by decide, by decide⟩
  intro s
  apply String.ext
  rw [cleanCEP_data, filter_isAsciiDigit]

/-- C2: isValidCEP is true exactly for the strings that consist of 8 ASCII decimal digits and
nothing else; it is false on "1231000" (7 digits) and "123100001" (9 digits) and true on
"01310100". -/
theorem isValidCEP_iff_eight_digits :
    (∀ s : String, isValidCEP s = true ↔
        s.data.length = 8 ∧ ∀ c ∈ s.data, isAsciiDigit c = true) ∧
      isValidCEP "1231000" = false ∧ isValidCEP "123100001" = false ∧
      isValidCEP "01310100" = true := by
  refine ⟨?_, by decide, by decide, by decide⟩
  intro s
  rw [isValidCEP_iff]
  simp only [isAsciiDigit_eq_isDigit]

/-- C3: for a request whose `cep` argument is the string `raw`, the handler returns the error
result "Invalid CEP format. Expected 8 digits (e.g., 01310100 or 01310-100)" if and only if
the length of `cleanCEP raw` is not 8, that is if and only if `raw` does not hold exactly 8
ASCII digits; on a normalised string isValidCEP is the test that the length is 8. -/
theorem invalid_format_iff (upstream : String → GetOutcome) (request : CallToolRequest)
    (raw : String) (h : request.GetArguments.lookup "cep" = some (GoAny.string raw)) :
    ((handleCEPLookup upstream request).1 =
        { result := some { content := [{ type := "text",
                                         text := "Invalid CEP format. Expected 8 digits (e.g., 01310100 or 01310-100)" }],
                           isError := true },
          err := none } ↔
      (cleanCEP raw).utf8ByteSize ≠ 8) ∧
    ((cleanCEP raw).utf8ByteSize ≠ 8 ↔ (raw.data.filter isAsciiDigit).length ≠ 8) ∧
    isValidCEP (cleanCEP raw) = decide ((cleanCEP raw).utf8ByteSize = 8) := by
  refine ⟨?_, ?_, isValidCEP_cleanCEP raw⟩
  · rw [handle_of_string upstream request raw h, isValidCEP_cleanCEP]
    by_cases hlen : (cleanCEP raw).utf8ByteSize = 8
    · simp only [hlen, decide_True, Bool.not_true, Bool.false_eq_true, if_false, ne_eq,
        not_true_eq_false, iff_false]
      cases hf : fetchAddressFromAPI upstream (cleanCEP raw) with
      | mk r trace =>
        cases r with
        | error e =>
          intro heq
          simp only [HandlerReturn.mk.injEq, Option.some.injEq, CallToolResult.mk.injEq,
            List.cons.injEq, TextContent.mk.injEq, true_and, and_true] at heq
          exact failed_ne_invalid e heq
        | ok a =>
          intro heq
          simp at heq
    · simp [hlen]
  · rw [cleanCEP_utf8ByteSize, filter_isAsciiDigit]

/-- Witness of C3 on the raw input "1234", which is rejected, with its length 4. -/
theorem invalid_format_iff_witness :
    (handleCEPLookup (upstreamOk paulista) (requestOf [("cep", GoAny.string "1234")])).1 =
        { result := some { content := [{ type := "text",
                                         text := "Invalid CEP format. Expected 8 digits (e.g., 01310100 or 01310-100)" }],
                           isError := true },
          err := none } ∧
      (cleanCEP "1234").utf8ByteSize = 4 :=
  ⟨(invalid_format_iff (upstreamOk paulista) (requestOf [("cep", GoAny.string "1234")])
      "1234" rfl).1.mpr (by decide), by decide⟩

/-- C4: for every request whose argument map has no `cep` key, whatever else it holds, the
handler returns a result with the error flag set whose single text item is
"CEP parameter is required". -/
theorem missing_parameter (upstream : String → GetOutcome) (request : CallToolRequest)
    (h : request.GetArguments.lookup "cep" = none) :
    (handleCEPLookup upstream request).1 =
      { result := some { content := [{ type := "text", text := "CEP parameter is required" }],
                         isError := true },
        err := none } := by
  simp only [handleCEPLookup, h]

/-- Witness of C4 on a request that only holds an argument `zip`. -/
theorem missing_parameter_witness :
    (handleCEPLookup (upstreamOk paulista)
        (requestOf [("zip", GoAny.string "01310-100")])).1 =
      { result := some { content := [{ type := "text", text := "CEP parameter is required" }],
                         isError := true },
        err := none } :=
  missing_parameter (upstreamOk paulista) (requestOf [("zip", GoAny.string "01310-100")]) rfl

/-- C5: for every request whose `cep` argument is bound to a value that is not a string
(number, boolean, null, list, object), the handler returns a result with the error flag
set whose single text item is "CEP must be a string". -/
theorem non_string_parameter (upstream : String → GetOutcome) (request : CallToolRequest)
    (v : GoAny) (h : request.GetArguments.lookup "cep" = some v)
    (hv : ∀ s : String, v ≠ GoAny.string s) :
    (handleCEPLookup upstream request).1 =
      { result := some { content := [{ type := "text", text := "CEP must be a string" }],
                         isError := true },
        err := none } := by
  have hn : v.assertString = none := by
    cases v with
    | string s => exact absurd rfl (hv s)
    | _ => rfl
  simp only [handleCEPLookup, h, hn]

/-- Witness of C5 on a request whose `cep` is a JSON number. -/
theorem non_string_parameter_witness :
    (handleCEPLookup (upstreamOk paulista) (requestOf [("cep", GoAny.float64 0)])).1 =
      { result := some { content := [{ type := "text", text := "CEP must be a string" }],
                         isError := true },
        err := none } :=
  non_string_parameter (upstreamOk paulista) (requestOf [("cep", GoAny.float64 0)])
    (GoAny.float64 0) rfl (fun s hs => by cases hs)

/-! ## Formatting: the claims -/

/-- C6: for every record, formatAddress is the newline-join of the lines "<Label>: <value>"
taken in the order Street, Neighborhood, City, State, CEP for the fields whose value is
non-empty, the empty ones skipped; for street "Av. Paulista", city "São Paulo" and CEP
"01310-100" the output is "Street: Av. Paulista\nCity: São Paulo\nCEP: 01310-100". -/
theorem formatAddress_eq_spec :
    (∀ a : CEPResponse, formatAddress a = formattedResultSpec a) ∧
      formatAddress paulista = "Street: Av. Paulista\nCity: São Paulo\nCEP: 01310-100" := by
  refine ⟨?_, by decide⟩
  intro a
  unfold formatAddress formattedResultSpec
  by_cases h1 : a.Street = "" <;> by_cases h2 : a.Neighborhood = "" <;>
    by_cases h3 : a.City = "" <;> by_cases h4 : a.State = "" <;>
    by_cases h5 : a.CEP = "" <;>
    simp [h1, h2, h3, h4, h5, Join, String.intercalate, String.intercalate.go]

/-! ## Remote lookup: the claims -/

/-- C7: when the parameter is missing, is not a string, or normalises to something other than
8 digits, the handler makes no call at all, so fetchAddressFromAPI is not called and no
request is sent; and whenever the lookup is invoked for the raw input `raw`, it is invoked
exactly once, with exactly one request, whose URL is
"https://brasilapi.com.br/api/cep/v1/" followed by `cleanCEP raw`, a string of exactly 8
ASCII digits. -/
theorem lookup_only_on_valid_input (upstream : String → GetOutcome)
    (request : CallToolRequest) :
    ((request.GetArguments.lookup "cep" = none ∨
        (∃ v, request.GetArguments.lookup "cep" = some v ∧ ∀ s : String, v ≠ GoAny.string s) ∨
        (∃ raw, request.GetArguments.lookup "cep" = some (GoAny.string raw) ∧
          (cleanCEP raw).utf8ByteSize ≠ 8)) →
      (handleCEPLookup upstream request).2 = []) ∧
    (∀ raw, request.GetArguments.lookup "cep" = some (GoAny.string raw) →
      (∃ e ∈ (handleCEPLookup upstream request).2, e.isFetch = true ∨ e.isGet = true) →
      (handleCEPLookup upstream request).2.filter Event.isFetch =
          [Event.fetchAddressFromAPI (cleanCEP raw)] ∧
        (handleCEPLookup upstream request).2.filter Event.isGet =
          [Event.httpGet ("https://brasilapi.com.br/api/cep/v1/" ++ cleanCEP raw)] ∧
        (cleanCEP raw).data.length = 8 ∧
        ∀ c ∈ (cleanCEP raw).data, isAsciiDigit c = true) := by
  constructor
  · rintro (h | ⟨v, h, hv⟩ | ⟨raw, h, hv⟩)
    · simp only [handleCEPLookup, h]
    · have hn : v.assertString = none := by
        cases v with
        | string s => exact absurd rfl (hv s)
        | _ => rfl
      simp only [handleCEPLookup, h, hn]
    · rw [handle_of_invalid upstream request raw h hv]
  · intro raw h hex
    by_cases hv : (cleanCEP raw).utf8ByteSize = 8
    · have hlen : (cleanCEP raw).data.length = 8 := by
        rw [← utf8ByteSize_of_digits _ (cleanCEP_all_digits raw)]
        exact hv
      have hdig : ∀ c ∈ (cleanCEP raw).data, isAsciiDigit c = true := by
        intro c hc
        rw [isAsciiDigit_eq_isDigit]
        exact cleanCEP_all_digits raw c hc
      rw [handle_of_valid upstream request raw h hv]
      cases (fetchAddressFromAPI upstream (cleanCEP raw)).1 with
      | error e => exact ⟨by simp [Event.isFetch], by simp [Event.isGet], hlen, hdig⟩
      | ok a => exact ⟨by simp [Event.isFetch], by simp [Event.isGet], hlen, hdig⟩
    · rw [handle_of_invalid upstream request raw h hv] at hex
      simp at hex

/-- Witness of C7: no call for the raw input "1234", and one lookup with the URL ending in
"01310100" for the raw input "01310-100". -/
theorem lookup_only_on_valid_input_witness :
    (handleCEPLookup (upstreamOk paulista) (requestOf [("cep", GoAny.string "1234")])).2 = [] ∧
      (handleCEPLookup (upstreamOk paulista)
          (requestOf [("cep", GoAny.string "01310-100")])).2.filter Event.isGet =
        [Event.httpGet ("https://brasilapi.com.br/api/cep/v1/" ++ cleanCEP "01310-100")] :=
  ⟨(lookup_only_on_valid_input (upstreamOk paulista)
      (requestOf [("cep", GoAny.string "1234")])).1
      (Or.inr (Or.inr ⟨"1234", rfl, by decide⟩)),
   ((lookup_only_on_valid_input (upstreamOk paulista)
      (requestOf [("cep", GoAny.string "01310-100")])).2 "01310-100" rfl
      ⟨Event.fetchAddressFromAPI "01310100", by decide, Or.inl rfl⟩).2.1⟩

/-- C8 does not hold as stated: for the well-formed input "00000000" and an upstream that
answers with HTTP status 404 and a body of a JSON content type that cannot be decoded, `Get`
returns the response together with an error, and fetchAddressFromAPI fails with the reason
"failed to execute request: " followed by that error, not with "CEP not found"; the handler
returns that reason, so the result depends on the response body. -/
theorem not_found_undecodable_counterexample :
    (cleanCEP "00000000").utf8ByteSize = 8 ∧
      (upstreamUndecodable 404 "invalid character 'o' looking for beginning of value"
        ("https://brasilapi.com.br/api/cep/v1/" ++ cleanCEP "00000000")).statusCode = 404 ∧
      (fetchAddressFromAPI
          (upstreamUndecodable 404 "invalid character 'o' looking for beginning of value")
          (cleanCEP "00000000")).1 =
        .error "failed to execute request: invalid character 'o' looking for beginning of value" ∧
      (fetchAddressFromAPI
          (upstreamUndecodable 404 "invalid character 'o' looking for beginning of value")
          (cleanCEP "00000000")).1 ≠ .error "CEP not found" ∧
      (handleCEPLookup
          (upstreamUndecodable 404 "invalid character 'o' looking for beginning of value")
          (requestOf [("cep", GoAny.string "00000000")])).1 =
        { result := some { content := [{ type := "text",
                                         text := "Failed to fetch address: failed to execute request: invalid character 'o' looking for beginning of value" }],
                           isError := true },
          err := none } ∧
      (handleCEPLookup
          (upstreamUndecodable 404 "invalid character 'o' looking for beginning of value")
          (requestOf [("cep", GoAny.string "00000000")])).1 ≠
        { result := some { content := [{ type := "text",
                                         text := "Failed to fetch address: CEP not found" }],
                           isError := true },
          err := none } := by
  refine ⟨by decide, rfl, rfl, ?_, by decide, by decide⟩
  intro h
  have h2 : (Except.error
      "failed to execute request: invalid character 'o' looking for beginning of value" :
        Except String CEPResponse) = .error "CEP not found" := h
  exact absurd (Except.error.inj h2) (by decide)

/-- C8, amended: for every well-formed input, one that normalises to 8 digits, for which `Get`
returns no error and a response with HTTP status 404, fetchAddressFromAPI fails with reason
"CEP not found" whatever the text of the response is, and the handler returns the
error-flagged result "Failed to fetch address: CEP not found". -/
theorem not_found_result (upstream : String → GetOutcome) (request : CallToolRequest)
    (raw : String) (h : request.GetArguments.lookup "cep" = some (GoAny.string raw))
    (hv : (cleanCEP raw).utf8ByteSize = 8)
    (herr : (upstream ("https://brasilapi.com.br/api/cep/v1/" ++ cleanCEP raw)).err = none)
    (hcode : (upstream ("https://brasilapi.com.br/api/cep/v1/" ++ cleanCEP raw)).statusCode
      = 404) :
    (fetchAddressFromAPI upstream (cleanCEP raw)).1 = .error "CEP not found" ∧
      (handleCEPLookup upstream request).1 =
        { result := some { content := [{ type := "text",
                                         text := "Failed to fetch address: CEP not found" }],
                           isError := true },
          err := none } := by
  have hf := fetch_result_not_found upstream (cleanCEP raw) herr hcode
  refine ⟨hf, ?_⟩
  rw [handle_of_valid upstream request raw h hv, hf]
  rfl

/-- Witness of the amended C8 on the code "00000000" and a 404 response, returned without an
error, whose text is "no such code". -/
theorem not_found_result_witness :
    (fetchAddressFromAPI (upstreamStatus 404 "no such code")
        (cleanCEP "00000000")).1 = .error "CEP not found" ∧
      (handleCEPLookup (upstreamStatus 404 "no such code")
          (requestOf [("cep", GoAny.string "00000000")])).1 =
        { result := some { content := [{ type := "text",
                                         text := "Failed to fetch address: CEP not found" }],
                           isError := true },
          err := none } :=
  not_found_result (upstreamStatus 404 "no such code")
    (requestOf [("cep", GoAny.string "00000000")]) "00000000" rfl (by decide) rfl rfl

/-- C9 does not hold as stated, on two counts.  The status 304 is outside 200..299 and is not
404, yet for a response with status 304 fetchAddressFromAPI does not fail: it returns the
record, and the handler returns a success with the formatted (empty) record.  And for an
answer with status 500 and a body of a JSON content type that cannot be decoded, `Get`
returns an error with the response, and the reason is "failed to execute request: "
followed by that error, not "API returned status 500: " followed by a body. -/
theorem non_2xx_counterexample :
    (¬ ((200 : Int) ≤ 304 ∧ (304 : Int) ≤ 299) ∧ (304 : Int) ≠ 404 ∧
      (upstreamStatus 304 "" "https://brasilapi.com.br/api/cep/v1/01310100").err = none ∧
      (upstreamStatus 304 "" "https://brasilapi.com.br/api/cep/v1/01310100").statusCode = 304 ∧
      (fetchAddressFromAPI (upstreamStatus 304 "") "01310100").1 = .ok emptyRecord ∧
      (fetchAddressFromAPI (upstreamStatus 304 "") "01310100").1 ≠
        .error "API returned status 304: " ∧
      (handleCEPLookup (upstreamStatus 304 "")
          (requestOf [("cep", GoAny.string "01310-100")])).1 =
        { result := some { content := [{ type := "text", text := "" }], isError := false },
          err := none }) ∧
    (¬ ((200 : Int) ≤ 500 ∧ (500 : Int) ≤ 299) ∧ (500 : Int) ≠ 404 ∧
      (upstreamUndecodable 500 "invalid character 'o' looking for beginning of value"
        "https://brasilapi.com.br/api/cep/v1/01310100").statusCode = 500 ∧
      (fetchAddressFromAPI
          (upstreamUndecodable 500 "invalid character 'o' looking for beginning of value")
          "01310100").1 =
        .error "failed to execute request: invalid character 'o' looking for beginning of value") := by
  refine ⟨⟨by decide, by decide, rfl, rfl, rfl, ?_, by decide⟩, by decide, by decide, rfl, rfl⟩
  intro h
  have h2 : (Except.ok emptyRecord : Except String CEPResponse) =
      .error "API returned status 304: " := h
  cases h2

/-- C9, amended: for every response that `Get` returns without an error and whose HTTP status
code is 400 or above and is not 404, fetchAddressFromAPI fails, returning no record, with
the reason "API returned status <code>: <text>", where <code> is the status code in decimal
and <text> is `resp.String()`, the text that resty gives for the body of the response. -/
theorem error_status_result (upstream : String → GetOutcome) (cep : String)
    (herr : (upstream ("https://brasilapi.com.br/api/cep/v1/" ++ cep)).err = none)
    (hcode : (upstream ("https://brasilapi.com.br/api/cep/v1/" ++ cep)).statusCode ≥ 400)
    (h404 : (upstream ("https://brasilapi.com.br/api/cep/v1/" ++ cep)).statusCode ≠ 404) :
    (fetchAddressFromAPI upstream cep).1 =
      .error ("API returned status " ++
        toString (upstream ("https://brasilapi.com.br/api/cep/v1/" ++ cep)).statusCode ++
        ": " ++ (upstream ("https://brasilapi.com.br/api/cep/v1/" ++ cep)).respString) :=
  fetch_result_status upstream cep herr (by omega) h404

/-- Witness of the amended C9 on a 500 response, returned without an error, whose text is
"boom". -/
theorem error_status_result_witness :
    (fetchAddressFromAPI (upstreamStatus 500 "boom") "01310100").1 =
      .error "API returned status 500: boom" :=
  error_status_result (upstreamStatus 500 "boom") "01310100" rfl (by decide) (by decide)

/-- C10: for every well-formed input and every lookup failure with reason `r`, the handler
returns the error-flagged result "Failed to fetch address: " followed by `r`, and
formatAddress is not called; a transport failure with error text `e` is a lookup failure
with reason "failed to execute request: " followed by `e`; and formatAddress is called
only on a well-formed input whose lookup succeeded, on the record it returned. -/
theorem lookup_failure_result (upstream : String → GetOutcome) (request : CallToolRequest) :
    (∀ raw r : String, request.GetArguments.lookup "cep" = some (GoAny.string raw) →
      (cleanCEP raw).utf8ByteSize = 8 →
      (fetchAddressFromAPI upstream (cleanCEP raw)).1 = .error r →
      (handleCEPLookup upstream request).1 =
          { result := some { content := [{ type := "text",
                                           text := "Failed to fetch address: " ++ r }],
                             isError := true },
            err := none } ∧
        ∀ e ∈ (handleCEPLookup upstream request).2, e.isFormat = false) ∧
    (∀ cep e : String,
      (upstream ("https://brasilapi.com.br/api/cep/v1/" ++ cep)).err = some e →
      (fetchAddressFromAPI upstream cep).1 = .error ("failed to execute request: " ++ e)) ∧
    (∀ a : CEPResponse, Event.formatAddress a ∈ (handleCEPLookup upstream request).2 →
      ∃ raw, request.GetArguments.lookup "cep" = some (GoAny.string raw) ∧
        (cleanCEP raw).utf8ByteSize = 8 ∧
        (fetchAddressFromAPI upstream (cleanCEP raw)).1 = .ok a) := by
  refine ⟨?_, fun cep e herr => fetch_result_transport upstream cep e herr, ?_⟩
  · intro raw r h hv hf
    rw [handle_of_valid upstream request raw h hv, hf]
    exact ⟨rfl, by simp [Event.isFormat]⟩
  · intro a ha
    cases hl : request.GetArguments.lookup "cep" with
    | none => simp [handleCEPLookup, hl] at ha
    | some v =>
      cases v with
      | string raw =>
        refine ⟨raw, rfl, ?_⟩
        by_cases hv : (cleanCEP raw).utf8ByteSize = 8
        · refine ⟨hv, ?_⟩
          rw [handle_of_valid upstream request raw hl hv] at ha
          cases hf : (fetchAddressFromAPI upstream (cleanCEP raw)).1 with
          | error e => rw [hf] at ha; simp at ha
          | ok b =>
            rw [hf] at ha
            simp at ha
            rw [ha]
        · rw [handle_of_invalid upstream request raw hl hv] at ha
          simp at ha
      | _ => simp [handleCEPLookup, hl, GoAny.assertString] at ha

/-- Witness of C10 on the raw input "01310-100" and an upstream that times out. -/
theorem lookup_failure_result_witness :
    (handleCEPLookup (upstreamDown "context deadline exceeded")
        (requestOf [("cep", GoAny.string "01310-100")])).1 =
      { result := some { content := [{ type := "text",
                                       text := "Failed to fetch address: " ++
                                         "failed to execute request: context deadline exceeded" }],
                         isError := true },
        err := none } :=
  ((lookup_failure_result (upstreamDown "context deadline exceeded")
      (requestOf [("cep", GoAny.string "01310-100")])).1 "01310-100"
      "failed to execute request: context deadline exceeded" rfl (by decide) rfl).1

/-! ## The handler as a whole: the claims -/

/-- C11: for every request and every upstream outcome the handler returns a non-nil result
and a nil error; the result has exactly one content item, of type "text"; its error flag is
false if and only if the parameter was a string that normalises to 8 digits and the lookup
succeeded, and then the text is formatAddress of the decoded record. -/
theorem handler_result_shape (upstream : String → GetOutcome) (request : CallToolRequest) :
    ∃ res : CallToolResult,
      (handleCEPLookup upstream request).1 = { result := some res, err := none } ∧
      (∃ text, res.content = [{ type := "text", text := text }]) ∧
      (res.isError = false ↔
        ∃ raw a, request.GetArguments.lookup "cep" = some (GoAny.string raw) ∧
          (cleanCEP raw).utf8ByteSize = 8 ∧
          (fetchAddressFromAPI upstream (cleanCEP raw)).1 = .ok a) ∧
      (∀ raw a, request.GetArguments.lookup "cep" = some (GoAny.string raw) →
        (cleanCEP raw).utf8ByteSize = 8 →
        (fetchAddressFromAPI upstream (cleanCEP raw)).1 = .ok a →
        res = { content := [{ type := "text", text := formatAddress a }],
                isError := false }) := by
  cases hl : request.GetArguments.lookup "cep" with
  | none =>
    refine ⟨{ content := [{ type := "text", text := "CEP parameter is required" }],
              isError := true }, by simp only [handleCEPLookup, hl], ⟨_, rfl⟩, ?_, ?_⟩
    · simp
    · intro raw a h; cases h
  | some v =>
    by_cases hs : ∃ raw, v = GoAny.string raw
    · obtain ⟨raw, rfl⟩ := hs
      by_cases hv : (cleanCEP raw).utf8ByteSize = 8
      · cases hf : (fetchAddressFromAPI upstream (cleanCEP raw)).1 with
        | error e =>
          refine ⟨_, by rw [handle_of_valid upstream request raw hl hv, hf], ⟨_, rfl⟩, ?_, ?_⟩
          · simp only [Bool.true_eq_false, false_iff]
            rintro ⟨raw2, a, h1, _, h3⟩
            cases h1
            rw [hf] at h3
            cases h3
          · intro raw2 a h1 _ h3
            cases h1
            rw [hf] at h3
            cases h3
        | ok b =>
          refine ⟨_, by rw [handle_of_valid upstream request raw hl hv, hf], ⟨_, rfl⟩, ?_, ?_⟩
          · simp only [true_iff]
            exact ⟨raw, b, rfl, hv, hf⟩
          · intro raw2 a h1 _ h3
            cases h1
            rw [hf] at h3
            cases h3
            rfl
      · refine ⟨_, by rw [handle_of_invalid upstream request raw hl hv], ⟨_, rfl⟩, ?_, ?_⟩
        · simp only [Bool.true_eq_false, false_iff]
          rintro ⟨raw2, a, h1, h2, _⟩
          cases h1
          exact hv h2
        · intro raw2 a h1 h2 _
          cases h1
          exact absurd h2 hv
    · have hn : v.assertString = none := by
        cases v with
        | string t => exact absurd ⟨t, rfl⟩ hs
        | _ => rfl
      refine ⟨{ content := [{ type := "text", text := "CEP must be a string" }],
                isError := true }, by simp only [handleCEPLookup, hl, hn], ⟨_, rfl⟩, ?_, ?_⟩
      · simp only [Bool.true_eq_false, false_iff]
        rintro ⟨raw2, a, h1, _, _⟩
        cases h1
        exact hs ⟨raw2, rfl⟩
      · intro raw2 a h1 _ _
        cases h1
        exact absurd ⟨raw2, rfl⟩ hs

/-- Witness of C11 on the raw input "01310-100" and an upstream that returns the record of
Av. Paulista: the result is the formatted record, without the error flag. -/
theorem handler_result_shape_witness :
    ∃ res : CallToolResult,
      (handleCEPLookup (upstreamOk paulista)
          (requestOf [("cep", GoAny.string "01310-100")])).1 =
        { result := some res, err := none } ∧
      res = { content := [{ type := "text", text := formatAddress paulista }],
              isError := false } :=
  match handler_result_shape (upstreamOk paulista)
      (requestOf [("cep", GoAny.string "01310-100")]) with
  | ⟨res, h1, _, _, h4⟩ => ⟨res, h1, h4 "01310-100" paulista rfl (by decide) rfl⟩

/-- C12: for every record whose fields are all empty formatAddress returns the empty string,
and on a successful lookup that decodes to such a record the handler returns a result
without the error flag and with the text "": a success, not an error. -/
theorem empty_record_success (a : CEPResponse)
    (h1 : a.Street = "") (h2 : a.Neighborhood = "") (h3 : a.City = "") (h4 : a.State = "")
    (h5 : a.CEP = "") (_h6 : a.Service = "") :
    formatAddress a = "" ∧
      ∀ (upstream : String → GetOutcome) (request : CallToolRequest) (raw : String),
        request.GetArguments.lookup "cep" = some (GoAny.string raw) →
        (cleanCEP raw).utf8ByteSize = 8 →
        (fetchAddressFromAPI upstream (cleanCEP raw)).1 = .ok a →
        (handleCEPLookup upstream request).1 =
          { result := some { content := [{ type := "text", text := "" }], isError := false },
            err := none } := by
  have hf : formatAddress a = "" := by
    simp [formatAddress, h1, h2, h3, h4, h5, Join]
  refine ⟨hf, ?_⟩
  intro upstream request raw hl hv hok
  rw [handle_of_valid upstream request raw hl hv, hok]
  simp only [hf]

/-- Witness of C12 on the zero record, returned with status 200 for the input "01310-100". -/
theorem empty_record_success_witness :
    formatAddress emptyRecord = "" ∧
      (handleCEPLookup (upstreamOk emptyRecord)
          (requestOf [("cep", GoAny.string "01310-100")])).1 =
        { result := some { content := [{ type := "text", text := "" }], isError := false },
          err := none } :=
  ⟨(empty_record_success emptyRecord rfl rfl rfl rfl rfl rfl).1,
   (empty_record_success emptyRecord rfl rfl rfl rfl rfl rfl).2 (upstreamOk emptyRecord)
      (requestOf [("cep", GoAny.string "01310-100")]) "01310-100" rfl (by decide) rfl⟩

/-- C13: for two raw string inputs with the same digit projection and the same upstream (a
fixed function from the request URL to the outcome) the handler returns identical results
and makes the same calls; in particular a repeated call with the same CEP returns the same
output. -/
theorem same_projection_same_result (upstream : String → GetOutcome)
    (request₁ request₂ : CallToolRequest) (raw₁ raw₂ : String)
    (h₁ : request₁.GetArguments.lookup "cep" = some (GoAny.string raw₁))
    (h₂ : request₂.GetArguments.lookup "cep" = some (GoAny.string raw₂))
    (hc : cleanCEP raw₁ = cleanCEP raw₂) :
    handleCEPLookup upstream request₁ = handleCEPLookup upstream request₂ := by
  rw [handle_of_string upstream request₁ raw₁ h₁, handle_of_string upstream request₂ raw₂ h₂,
    hc]

/-- Witness of C13 on the raw inputs "01310-100" and "01310100". -/
theorem same_projection_same_result_witness :
    handleCEPLookup (upstreamOk paulista) (requestOf [("cep", GoAny.string "01310-100")]) =
      handleCEPLookup (upstreamOk paulista) (requestOf [("cep", GoAny.string "01310100")]) :=
  same_projection_same_result (upstreamOk paulista)
    (requestOf [("cep", GoAny.string "01310-100")])
    (requestOf [("cep", GoAny.string "01310100")]) "01310-100" "01310100" rfl rfl (by decide)

/-! ## Lines, idempotence, the service field and the order of the checks: the claims -/

/-- C14 does not hold as stated: the record whose only non-empty field is the street "A\nB"
has one non-empty field, but splitting the output of formatAddress on the newline separator
yields two lines, "Street: A" and "B", and the second does not begin with a label. -/
theorem two_line_street_counterexample :
    (presentFields twoLineStreet).length = 1 ∧
      outputLines (formatAddress twoLineStreet) = ["Street: A", "B"] ∧
      (outputLines (formatAddress twoLineStreet)).length = 2 := by
  decide

/-- C14, amended: for every record whose values of Street, Neighborhood, City, State and CEP
hold no newline character, splitting the output of formatAddress on the newline separator
yields exactly one line per non-empty field among those five (none for the empty output):
the lines are the "<Label>: <value>" of the non-empty fields in order, so there are as many
lines as non-empty fields and the i-th line begins with the label of the i-th such field. -/
theorem formatAddress_lines (a : CEPResponse)
    (hnl : ∀ v ∈ [a.Street, a.Neighborhood, a.City, a.State, a.CEP], '\n' ∉ v.data) :
    outputLines (formatAddress a) = (presentFields a).map (fun p => p.1 ++ ": " ++ p.2) ∧
      (outputLines (formatAddress a)).length = (presentFields a).length ∧
      List.Forall₂ (fun line p => (p.1 ++ ": ").data <+: line.data)
        (outputLines (formatAddress a)) (presentFields a) := by
  have hlines : outputLines (formatAddress a) =
      (presentFields a).map (fun p => p.1 ++ ": " ++ p.2) := by
    rw [formatAddress_eq_Join]
    apply outputLines_Join
    · intro s hs
      obtain ⟨p, _, rfl⟩ := List.mem_map.mp hs
      exact line_ne_empty p
    · intro s hs
      obtain ⟨p, hp, rfl⟩ := List.mem_map.mp hs
      have hmem := (presentFields_mem a p hp).2
      simp only [List.mem_cons, List.mem_singleton, forall_eq_or_imp, forall_eq,
        List.not_mem_nil, false_imp_iff, implies_true, and_true] at hnl
      obtain ⟨n1, n2, n3, n4, n5⟩ := hnl
      rcases hmem with h | h | h | h | h <;> rw [h] <;>
        simp only [String.data_append, List.mem_append, not_or]
      · exact ⟨⟨by decide, by decide⟩, n1⟩
      · exact ⟨⟨by decide, by decide⟩, n2⟩
      · exact ⟨⟨by decide, by decide⟩, n3⟩
      · exact ⟨⟨by decide, by decide⟩, n4⟩
      · exact ⟨⟨by decide, by decide⟩, n5⟩
  refine ⟨hlines, by rw [hlines, List.length_map], ?_⟩
  rw [hlines, List.forall₂_map_left_iff, List.forall₂_same]
  intro p _
  simp only [String.data_append]
  exact ⟨p.2.data, by simp⟩

/-- Witness of the amended C14 on the record of Av. Paulista: three lines. -/
theorem formatAddress_lines_witness :
    outputLines (formatAddress paulista) =
      ["Street: Av. Paulista", "City: São Paulo", "CEP: 01310-100"] :=
  (formatAddress_lines paulista (by decide)).1

/-- C15: cleanCEP is idempotent, and it leaves unchanged every string that isValidCEP
accepts. -/
theorem cleanCEP_idempotent :
    (∀ s : String, cleanCEP (cleanCEP s) = cleanCEP s) ∧
      (∀ s : String, isValidCEP s = true → cleanCEP s = s) := by
  constructor
  · intro s
    apply String.ext
    rw [cleanCEP_data, cleanCEP_data, List.filter_filter]
    simp
  · intro s h
    apply String.ext
    rw [cleanCEP_data, List.filter_eq_self]
    exact ((isValidCEP_iff s).mp h).2

/-- Witness of C15 on the valid code "01310100". -/
theorem cleanCEP_idempotent_witness : cleanCEP "01310100" = "01310100" :=
  cleanCEP_idempotent.2 "01310100" (by decide)

/-- C16: the service field never influences the output: two records that agree on Street,
Neighborhood, City, State and CEP have the same formatAddress, whatever their Service; so
formatAddress returns "" if and only if those five fields are all empty, also when Service
is not empty. -/
theorem service_not_in_output :
    (∀ a b : CEPResponse, a.Street = b.Street → a.Neighborhood = b.Neighborhood →
        a.City = b.City → a.State = b.State → a.CEP = b.CEP →
        formatAddress a = formatAddress b) ∧
      (∀ a : CEPResponse, formatAddress a = "" ↔
        a.Street = "" ∧ a.Neighborhood = "" ∧ a.City = "" ∧ a.State = "" ∧ a.CEP = "") ∧
      serviceOnly.Service ≠ "" ∧ formatAddress serviceOnly = "" := by
  refine ⟨?_, ?_, by decide, by decide⟩
  · intro a b h1 h2 h3 h4 h5
    simp only [formatAddress, h1, h2, h3, h4, h5]
  · intro a
    rw [formatAddress_eq_empty_iff, presentFields_eq_nil_iff]

/-- Witness of C16 on the record of Av. Paulista with and without a service name. -/
theorem service_not_in_output_witness :
    formatAddress { paulista with Service := "correios" } = formatAddress paulista :=
  service_not_in_output.1 { paulista with Service := "correios" } paulista rfl rfl rfl rfl rfl

/-- C17: the checks are applied in a fixed precedence: for every request and upstream the
result of the handler is the one of the first failing step in the order extraction, type
check, validation, lookup, or the success when none fails; and results of steps of
different kinds have different texts, so exactly one of the four error texts or the success
text is produced. -/
theorem first_failing_step_decides (upstream : String → GetOutcome)
    (request : CallToolRequest) :
    (handleCEPLookup upstream request).1 =
        { result := some (firstFailingStep upstream request).result, err := none } ∧
      (∀ s t : Step, s.result.content = t.result.content → s.kind = t.kind) := by
  constructor
  · cases hl : request.GetArguments.lookup "cep" with
    | none => simp only [handleCEPLookup, firstFailingStep, hl, Step.result]
    | some v =>
      by_cases hs : ∃ raw, v = GoAny.string raw
      · obtain ⟨raw, rfl⟩ := hs
        rw [firstFailingStep_of_string upstream request raw hl]
        by_cases hv : (cleanCEP raw).utf8ByteSize = 8
        · rw [handle_of_valid upstream request raw hl hv]
          cases (fetchAddressFromAPI upstream (cleanCEP raw)).1 <;> simp [hv, Step.result]
        · rw [handle_of_invalid upstream request raw hl hv]
          simp [hv, Step.result]
      · have hn : v.assertString = none := by
          cases v with
          | string t => exact absurd ⟨t, rfl⟩ hs
          | _ => rfl
        have hstep : firstFailingStep upstream request = Step.typeCheck := by
          cases v with
          | string t => exact absurd ⟨t, rfl⟩ hs
          | _ => simp only [firstFailingStep, hl]
        simp only [handleCEPLookup, hl, hn, hstep, Step.result]
  · intro s t h
    cases s <;> cases t <;>
      simp only [Step.result, List.cons.injEq, TextContent.mk.injEq, and_true, true_and] at h <;>
      first
      | rfl
      | exact absurd h (by decide)
      | exact absurd h (failed_ne_of_take_five _ _ (by decide))
      | exact absurd h.symm (failed_ne_of_take_five _ _ (by decide))
      | exact absurd h (formatAddress_ne_of_take_five _ _ (by decide) (by decide))
      | exact absurd h.symm (formatAddress_ne_of_take_five _ _ (by decide) (by decide))
      | exact absurd h (formatAddress_ne_failed _ _)
      | exact absurd h.symm (formatAddress_ne_failed _ _)

/-- Witness of C17 on a raw input with three digits and an upstream that is down: the
format error is returned, not the lookup error. -/
theorem first_failing_step_decides_witness :
    (handleCEPLookup (upstreamDown "connection refused")
        (requestOf [("cep", GoAny.string "123")])).1 =
      { result := some Step.validation.result, err := none } ∧
      Step.validation.kind = (Step.validation).kind :=
  ⟨(first_failing_step_decides (upstreamDown "connection refused")
      (requestOf [("cep", GoAny.string "123")])).1,
   (first_failing_step_decides (upstreamDown "connection refused")
      (requestOf [("cep", GoAny.string "123")])).2 Step.validation Step.validation rfl⟩

end CEPLookup
